import Mathlib

/-!
Verification of the image cell-size resolution logic of `textual-image`.

The repository fragment under study is the Textual widget adapter
`textual_kitty/widget/_base.py`.  Its pure core, the cell-size resolver
(`ImageSize.get_cell_size` from `textual_kitty.geometry`), is declared and
called there but its body is not part of the fragment, so the resolver is
modelled from the specification.  The widget-level operations (the `image`
setter, `render`, `get_content_width`, `get_content_height`,
`_get_styled_dimension`) are embedded from the source.

Terminal cell metrics are physical pixel sizes of one character cell; the
specification types them as floats, embedded here as exact rationals.
-/

namespace TextualKitty

/-- Sizing request for one axis: `auto` defers to aspect-ratio-preserving
computation, `fixed n` is an explicit cell count. -/
inductive CellDimension where
  | auto : CellDimension
  | fixed : Nat → CellDimension
deriving DecidableEq

/-- Image size information handed to the resolver: pixel dimensions of the
image (0 meaning no image loaded) and the per-axis requested dimension,
where `none` means the style system gave no constraint (unset). -/
structure ImageSize where
  pixelWidth : Nat
  pixelHeight : Nat
  requestedWidth : Option CellDimension
  requestedHeight : Option CellDimension
deriving DecidableEq

/-- Physical pixel size of one terminal character cell. -/
structure TerminalCellMetrics where
  cellPixelWidth : ℚ
  cellPixelHeight : ℚ
deriving DecidableEq

/-- Available cell space from the layout engine. -/
structure ContainerBounds where
  width : Nat
  height : Nat
deriving DecidableEq

/-- The resolver's only error: the terminal reported a zero or negative
cell pixel size. -/
inductive ResolveError where
  | InvalidMetrics : ResolveError
deriving DecidableEq

/-- Modelled from the spec: `cellsNeeded = ceil(pixelDimension / cellPixelDimension)`,
the number of cells needed to render `pixelDim` image pixels at
`cellPixelDim` pixels per cell. -/
def cellsNeeded (pixelDim : Nat) (cellPixelDim : ℚ) : Nat :=
  (⌈(pixelDim : ℚ) / cellPixelDim⌉).toNat

/-- Modelled from the spec: the pixel length derived for the non-fixed axis
when the other axis is `fixed n`, preserving the image's pixel aspect
ratio: `otherPixelDim * (n * fixedCellPx / fixedPixelDim)`. -/
def derivedPixelLen (otherPixelDim fixedPixelDim n : Nat) (fixedCellPx : ℚ) : ℚ :=
  (otherPixelDim : ℚ) * ((n : ℚ) * fixedCellPx / (fixedPixelDim : ℚ))

/-- Modelled from the spec: cell count for the non-fixed axis, obtained by
converting the aspect-preserving derived pixel length to cells via the same
ceil-division. -/
def derivedCells (otherPixelDim fixedPixelDim n : Nat) (fixedCellPx otherCellPx : ℚ) : Nat :=
  (⌈derivedPixelLen otherPixelDim fixedPixelDim n fixedCellPx / otherCellPx⌉).toNat

/-- Modelled from the spec: the algorithm of `resolveCellSize` after input
validation.  Pixel width or height of 0 (no image) yields `(0, 0)`;
otherwise the four cases of the spec's algorithm apply, grouping unset and
`auto` together on a non-fixed axis, and each final component is clamped to
the container bound. -/
def resolveCellSizeCore (sz : ImageSize) (c : ContainerBounds) (m : TerminalCellMetrics) :
    Nat × Nat :=
  if sz.pixelWidth = 0 ∨ sz.pixelHeight = 0 then (0, 0)
  else
    match sz.requestedWidth, sz.requestedHeight with
    | some (CellDimension.fixed w), some (CellDimension.fixed h) =>
        (min w c.width, min h c.height)
    | some (CellDimension.fixed w), _ =>
        (min w c.width,
         min (derivedCells sz.pixelHeight sz.pixelWidth w m.cellPixelWidth m.cellPixelHeight)
           c.height)
    | _, some (CellDimension.fixed h) =>
        (min (derivedCells sz.pixelWidth sz.pixelHeight h m.cellPixelHeight m.cellPixelWidth)
           c.width,
         min h c.height)
    | _, _ =>
        (min (cellsNeeded sz.pixelWidth m.cellPixelWidth) c.width,
         min (cellsNeeded sz.pixelHeight m.cellPixelHeight) c.height)

/-- Modelled from the spec: `resolveCellSize(imageSize, container, terminalMetrics)`,
the body of `ImageSize.get_cell_size` which is not part of the source
fragment.  Terminal metrics must have positive components; this input
validation (spec section 4.1) precedes the algorithm, failing with
`InvalidMetrics` when violated. -/
def resolveCellSize (sz : ImageSize) (c : ContainerBounds) (m : TerminalCellMetrics) :
    Except ResolveError (Nat × Nat) :=
  if m.cellPixelWidth ≤ 0 ∨ m.cellPixelHeight ≤ 0 then
    Except.error ResolveError.InvalidMetrics
  else
    Except.ok (resolveCellSizeCore sz c m)

/-- A style value for one axis as seen by `_get_styled_dimension`: the host
style object is either absent (`None` in the source), an automatic size
(`style.is_auto`), or an explicit scalar carrying the cell count the style
requested (which the source never reads). -/
inductive StyleVal where
  | auto : StyleVal
  | scalar : Nat → StyleVal
deriving DecidableEq

/-- From `Image._get_styled_dimension`: `None` styles map to unset, `is_auto`
styles to `auto`, and any other style to a fixed dimension taken from the
widget's `content_size` on that axis (not from the style's own value). -/
def getStyledDimension (style : Option StyleVal) (contentSizeDim : Nat) :
    Option CellDimension :=
  match style with
  | none => none
  | some StyleVal.auto => some CellDimension.auto
  | some (StyleVal.scalar _) => some (CellDimension.fixed contentSizeDim)

/-- The image value assigned to the widget: a path, string or PIL image,
abstracted to its Python truthiness and the pixel dimensions `PixelMeta`
reports for it. -/
structure ImageValue where
  isTruthy : Bool
  width : Nat
  height : Nat
deriving DecidableEq

/-- The renderable constructed by `render`: it captures the image and the
styled size passed to the `Renderable` constructor. -/
structure RenderableModel where
  image : ImageValue
  styledWidth : Option CellDimension
  styledHeight : Option CellDimension
deriving DecidableEq

/-- State of the `Image` widget observable by the embedded operations:
the live renderable, the assigned image, the cached pixel dimensions, the
per-axis styles and content size, and counters for `cleanup` and `refresh`
calls. -/
structure WidgetModel where
  renderable : Option RenderableModel
  image : Option ImageValue
  image_width : Nat
  image_height : Nat
  styleWidth : Option StyleVal
  styleHeight : Option StyleVal
  contentWidth : Nat
  contentHeight : Nat
  cleanups : Nat
  refreshes : Nat
deriving DecidableEq

/-- Python truthiness of the widget's optional image value. -/
def truthy : Option ImageValue → Bool
  | none => false
  | some v => v.isTruthy

/-- From `Image._get_styled_size`: resolve both axes via
`_get_styled_dimension`. -/
def getStyledSize (w : WidgetModel) : Option CellDimension × Option CellDimension :=
  (getStyledDimension w.styleWidth w.contentWidth,
   getStyledDimension w.styleHeight w.contentHeight)

/-- The `ImageSize` the widget constructs in `get_content_width` and
`get_content_height`: cached pixel dimensions plus the styled size. -/
def widgetImageSize (w : WidgetModel) : ImageSize :=
  ⟨w.image_width, w.image_height, (getStyledSize w).1, (getStyledSize w).2⟩

/-- The `if self._renderable: cleanup(); self._renderable = None` prologue
shared by the `image` setter and `render`. -/
def cleanupRenderable (w : WidgetModel) : WidgetModel :=
  match w.renderable with
  | some _ => { w with cleanups := w.cleanups + 1, renderable := none }
  | none => w

/-- From the `Image.image` setter: clean up any live renderable, store the
value, cache the pixel dimensions (`PixelMeta` sizes when the value is
truthy, zeros otherwise) and trigger a refresh. -/
def setImage (w : WidgetModel) (value : Option ImageValue) : WidgetModel :=
  let w1 := cleanupRenderable w
  let w2 := { w1 with image := value }
  let w3 :=
    match value with
    | some v =>
        if v.isTruthy then { w2 with image_width := v.width, image_height := v.height }
        else { w2 with image_width := 0, image_height := 0 }
    | none => { w2 with image_width := 0, image_height := 0 }
  { w3 with refreshes := w3.refreshes + 1 }

/-- From `Image.render`: assert the image is truthy (`none` models an
assertion failure), clean up any previous renderable, and install a fresh
renderable built from the image and the current styled size. -/
def render (w : WidgetModel) : Option WidgetModel :=
  match w.image with
  | some v =>
      if v.isTruthy then
        let w1 := cleanupRenderable w
        some { w1 with
          renderable := some ⟨v, (getStyledSize w).1, (getStyledSize w).2⟩ }
      else none
  | none => none

/-- One query of the terminal-metrics provider, modelled as an oracle
indexed by how many queries were made so far; returns the metrics and the
incremented query count (`get_terminal_sizes` in the source). -/
def queryMetrics (provider : Nat → TerminalCellMetrics) (queries : Nat) :
    TerminalCellMetrics × Nat :=
  (provider queries, queries + 1)

/-- From `Image.get_content_width`: resolve the styled size, query the
terminal metrics once, run the resolver against the container bounds and
keep only the width component. -/
def get_content_width (w : WidgetModel) (container _viewport : ContainerBounds)
    (provider : Nat → TerminalCellMetrics) (queries : Nat) :
    Except ResolveError Nat × Nat :=
  let (m, queries') := queryMetrics provider queries
  ((resolveCellSize (widgetImageSize w) container m).map Prod.fst, queries')

/-- From `Image.get_content_height`: resolve the styled size, query the
terminal metrics once, run the resolver with the already-resolved width in
place of the container width and keep only the height component. -/
def get_content_height (w : WidgetModel) (container _viewport : ContainerBounds)
    (width : Nat) (provider : Nat → TerminalCellMetrics) (queries : Nat) :
    Except ResolveError Nat × Nat :=
  let (m, queries') := queryMetrics provider queries
  ((resolveCellSize (widgetImageSize w) ⟨width, container.height⟩ m).map Prod.snd, queries')

/-! ## Helper lemmas -/

lemma resolveCellSize_ok (sz : ImageSize) (c : ContainerBounds) (m : TerminalCellMetrics)
    (hmw : 0 < m.cellPixelWidth) (hmh : 0 < m.cellPixelHeight) :
    resolveCellSize sz c m = Except.ok (resolveCellSizeCore sz c m) := by
  have hm : ¬(m.cellPixelWidth ≤ 0 ∨ m.cellPixelHeight ≤ 0) := by
    push_neg
    exact ⟨hmw, hmh⟩
  unfold resolveCellSize
  rw [if_neg hm]

lemma resolveCellSize_ok_inv (sz : ImageSize) (c : ContainerBounds) (m : TerminalCellMetrics)
    (pr : Nat × Nat) (hok : resolveCellSize sz c m = Except.ok pr) :
    pr = resolveCellSizeCore sz c m := by
  unfold resolveCellSize at hok
  by_cases hm : m.cellPixelWidth ≤ 0 ∨ m.cellPixelHeight ≤ 0
  · rw [if_pos hm] at hok
    simp at hok
  · rw [if_neg hm] at hok
    simp at hok
    exact hok.symm

lemma resolveCellSizeCore_zero (sz : ImageSize) (c : ContainerBounds) (m : TerminalCellMetrics)
    (h0 : sz.pixelWidth = 0 ∨ sz.pixelHeight = 0) :
    resolveCellSizeCore sz c m = (0, 0) := by
  unfold resolveCellSizeCore
  rw [if_pos h0]

lemma resolveCellSizeCore_pos (sz : ImageSize) (c : ContainerBounds) (m : TerminalCellMetrics)
    (hpw : 0 < sz.pixelWidth) (hph : 0 < sz.pixelHeight) :
    resolveCellSizeCore sz c m =
      match sz.requestedWidth, sz.requestedHeight with
      | some (CellDimension.fixed w), some (CellDimension.fixed h) =>
          (min w c.width, min h c.height)
      | some (CellDimension.fixed w), _ =>
          (min w c.width,
           min (derivedCells sz.pixelHeight sz.pixelWidth w m.cellPixelWidth m.cellPixelHeight)
             c.height)
      | _, some (CellDimension.fixed h) =>
          (min (derivedCells sz.pixelWidth sz.pixelHeight h m.cellPixelHeight m.cellPixelWidth)
             c.width,
           min h c.height)
      | _, _ =>
          (min (cellsNeeded sz.pixelWidth m.cellPixelWidth) c.width,
           min (cellsNeeded sz.pixelHeight m.cellPixelHeight) c.height) := by
  have hp : ¬(sz.pixelWidth = 0 ∨ sz.pixelHeight = 0) := by
    push_neg
    omega
  unfold resolveCellSizeCore
  rw [if_neg hp]

lemma ceil_div_toNat_bounds (x y : ℚ) (hx : 0 ≤ x) (hy : 0 < y) :
    x ≤ ((⌈x / y⌉).toNat : ℚ) * y ∧ ((⌈x / y⌉).toNat : ℚ) * y < x + y := by
  have hq : 0 ≤ x / y := div_nonneg hx hy.le
  have hc : 0 ≤ ⌈x / y⌉ := Int.ceil_nonneg hq
  have hcast : ((⌈x / y⌉).toNat : ℚ) = ((⌈x / y⌉ : ℤ) : ℚ) := by
    exact_mod_cast congrArg (fun z : ℤ => (z : ℚ)) (Int.toNat_of_nonneg hc)
  constructor
  · rw [hcast]
    exact (div_le_iff₀ hy).mp (Int.le_ceil (x / y))
  · rw [hcast]
    have h2 : ((⌈x / y⌉ : ℤ) : ℚ) < x / y + 1 := Int.ceil_lt_add_one (x / y)
    have h3 := mul_lt_mul_of_pos_right h2 hy
    rwa [add_mul, div_mul_cancel₀ x hy.ne', one_mul] at h3

lemma derivedPixelLen_nonneg (otherPx fixedPx n : Nat) (cp : ℚ) (hcp : 0 ≤ cp) :
    0 ≤ derivedPixelLen otherPx fixedPx n cp := by
  unfold derivedPixelLen
  have h2 : (0 : ℚ) ≤ (n : ℚ) * cp / (fixedPx : ℚ) :=
    div_nonneg (mul_nonneg (Nat.cast_nonneg n) hcp) (Nat.cast_nonneg fixedPx)
  exact mul_nonneg (Nat.cast_nonneg otherPx) h2

lemma core_components_le (sz : ImageSize) (c : ContainerBounds) (m : TerminalCellMetrics) :
    (resolveCellSizeCore sz c m).1 ≤ c.width ∧ (resolveCellSizeCore sz c m).2 ≤ c.height := by
  unfold resolveCellSizeCore
  split
  · simp
  · split <;> refine ⟨?_, ?_⟩ <;> simp

/-! ## Claim theorems -/

/-- Claim C1: with positive pixel dimensions and valid terminal metrics,
when both requested dimensions are unset, or both are `auto`,
`resolveCellSize` returns per axis `ceil(pixelDimension / cellPixelDimension)`
clamped to the container bound. -/
theorem resolve_unset_or_auto (sz : ImageSize) (c : ContainerBounds) (m : TerminalCellMetrics)
    (hpw : 0 < sz.pixelWidth) (hph : 0 < sz.pixelHeight)
    (hmw : 0 < m.cellPixelWidth) (hmh : 0 < m.cellPixelHeight)
    (hreq : (sz.requestedWidth = none ∧ sz.requestedHeight = none) ∨
      (sz.requestedWidth = some CellDimension.auto ∧
       sz.requestedHeight = some CellDimension.auto)) :
    resolveCellSize sz c m = Except.ok
      (min (cellsNeeded sz.pixelWidth m.cellPixelWidth) c.width,
       min (cellsNeeded sz.pixelHeight m.cellPixelHeight) c.height) := by
  rw [resolveCellSize_ok sz c m hmw hmh, resolveCellSizeCore_pos sz c m hpw hph]
  rcases hreq with ⟨h1, h2⟩ | ⟨h1, h2⟩ <;> rw [h1, h2]

/-- Claim C1 witness: the spec scenario pixelWidth=800, pixelHeight=400,
cellPixelWidth=10, cellPixelHeight=20, container=(100,100), both unset,
yields (80, 20). -/
theorem resolve_unset_or_auto_witness :
    resolveCellSize ⟨800, 400, none, none⟩ ⟨100, 100⟩ ⟨10, 20⟩ = Except.ok (80, 20) := by
  rw [resolve_unset_or_auto ⟨800, 400, none, none⟩ ⟨100, 100⟩ ⟨10, 20⟩
    (by norm_num) (by norm_num) (by norm_num) (by norm_num) (Or.inl ⟨rfl, rfl⟩)]
  norm_num [cellsNeeded]
  decide

/-- Claim C2: with positive pixel dimensions and valid terminal metrics,
when exactly one dimension is `fixed n` and the other is unset or `auto`,
`resolveCellSize` uses `n` for the fixed axis (clamped to the container)
and derives the other axis by preserving the pixel aspect ratio, converting
the derived pixel length to cells by the same ceil-division clamped to the
container bound; the derived (unclamped) cell count allocates a pixel
length within one cell of the aspect-exact derived pixel length. -/
theorem resolve_one_fixed (pw ph n : Nat) (r : Option CellDimension)
    (c : ContainerBounds) (m : TerminalCellMetrics)
    (hpw : 0 < pw) (hph : 0 < ph)
    (hmw : 0 < m.cellPixelWidth) (hmh : 0 < m.cellPixelHeight)
    (hr : r = none ∨ r = some CellDimension.auto) :
    (resolveCellSize ⟨pw, ph, some (CellDimension.fixed n), r⟩ c m =
      Except.ok (min n c.width,
        min (derivedCells ph pw n m.cellPixelWidth m.cellPixelHeight) c.height)) ∧
    (resolveCellSize ⟨pw, ph, r, some (CellDimension.fixed n)⟩ c m =
      Except.ok (min (derivedCells pw ph n m.cellPixelHeight m.cellPixelWidth) c.width,
        min n c.height)) ∧
    derivedPixelLen ph pw n m.cellPixelWidth ≤
      (derivedCells ph pw n m.cellPixelWidth m.cellPixelHeight : ℚ) * m.cellPixelHeight ∧
    (derivedCells ph pw n m.cellPixelWidth m.cellPixelHeight : ℚ) * m.cellPixelHeight <
      derivedPixelLen ph pw n m.cellPixelWidth + m.cellPixelHeight := by
  have hx : 0 ≤ derivedPixelLen ph pw n m.cellPixelWidth :=
    derivedPixelLen_nonneg ph pw n m.cellPixelWidth hmw.le
  have hbounds := ceil_div_toNat_bounds (derivedPixelLen ph pw n m.cellPixelWidth)
    m.cellPixelHeight hx hmh
  refine ⟨?_, ?_, hbounds.1, hbounds.2⟩
  · rw [resolveCellSize_ok _ _ _ hmw hmh, resolveCellSizeCore_pos _ _ _ hpw hph]
    rcases hr with h | h <;> rw [h]
  · rw [resolveCellSize_ok _ _ _ hmw hmh, resolveCellSizeCore_pos _ _ _ hpw hph]
    rcases hr with h | h <;> rw [h]

/-- Claim C2 witness: the spec scenario pixelWidth=800, pixelHeight=400,
cellPixelWidth=10, cellPixelHeight=20, container=(100,100),
requestedWidth=Fixed(40), requestedHeight unset yields (40, 10). -/
theorem resolve_one_fixed_witness :
    resolveCellSize ⟨800, 400, some (CellDimension.fixed 40), none⟩ ⟨100, 100⟩ ⟨10, 20⟩ =
      Except.ok (40, 10) := by
  rw [(resolve_one_fixed 800 400 40 none ⟨100, 100⟩ ⟨10, 20⟩
    (by norm_num) (by norm_num) (by norm_num) (by norm_num) (Or.inl rfl)).1]
  norm_num [derivedCells, derivedPixelLen]
  decide

/-- Claim C3: every successful result of `resolveCellSize` has width at
most the container width and height at most the container height, both
components are non-negative, and a container bound of 0 on an axis forces
that axis's output to 0. -/
theorem resolve_clamped (sz : ImageSize) (c : ContainerBounds) (m : TerminalCellMetrics)
    (w h : Nat) (hok : resolveCellSize sz c m = Except.ok (w, h)) :
    w ≤ c.width ∧ h ≤ c.height ∧ 0 ≤ w ∧ 0 ≤ h ∧
    (c.width = 0 → w = 0) ∧ (c.height = 0 → h = 0) := by
  have hpr := resolveCellSize_ok_inv sz c m (w, h) hok
  have hle := core_components_le sz c m
  rw [← hpr] at hle
  obtain ⟨h1, h2⟩ := hle
  exact ⟨h1, h2, Nat.zero_le w, Nat.zero_le h, fun hc => by omega, fun hc => by omega⟩

/-- Claim C3 witness: the spec scenario container=(10,10), both unset, on
the 800x400 image with 10x20 cells clamps the raw (80, 20) to (10, 10). -/
theorem resolve_clamped_witness :
    resolveCellSize ⟨800, 400, none, none⟩ ⟨10, 10⟩ ⟨10, 20⟩ = Except.ok (10, 10) ∧
    (10 ≤ 10 ∧ 10 ≤ 10 ∧ 0 ≤ 10 ∧ 0 ≤ 10 ∧
      (10 = 0 → 10 = 0) ∧ (10 = 0 → 10 = 0)) := by
  have hok : resolveCellSize ⟨800, 400, none, none⟩ ⟨10, 10⟩ ⟨10, 20⟩ =
      Except.ok (10, 10) := by
    rw [resolveCellSize_ok _ _ _ (by norm_num) (by norm_num),
        resolveCellSizeCore_pos _ _ _ (by norm_num) (by norm_num)]
    show Except.ok (min (cellsNeeded 800 10) 10, min (cellsNeeded 400 20) 10) = _
    norm_num [cellsNeeded]
  exact ⟨hok, resolve_clamped ⟨800, 400, none, none⟩ ⟨10, 10⟩ ⟨10, 20⟩ 10 10 hok⟩

/-- Claim C4: `resolveCellSize` fails, necessarily with `InvalidMetrics`,
exactly when the terminal cell metrics have a zero or negative component;
there is no other error condition. -/
theorem resolve_error_iff (sz : ImageSize) (c : ContainerBounds) (m : TerminalCellMetrics) :
    resolveCellSize sz c m = Except.error ResolveError.InvalidMetrics ↔
      (m.cellPixelWidth ≤ 0 ∨ m.cellPixelHeight ≤ 0) := by
  unfold resolveCellSize
  by_cases hm : m.cellPixelWidth ≤ 0 ∨ m.cellPixelHeight ≤ 0
  · rw [if_pos hm]
    simpa using hm
  · rw [if_neg hm]
    simpa using hm

/-- Claim C5 counterexample: with pixelWidth = 0 but invalid terminal
metrics (cellPixelWidth = 0), `resolveCellSize` raises `InvalidMetrics`
instead of returning (0, 0), so the zero-pixel no-op does not hold
regardless of the terminal metrics. -/
theorem resolve_zero_pixels_cex :
    resolveCellSize ⟨0, 400, none, none⟩ ⟨100, 100⟩ ⟨0, 20⟩ ≠ Except.ok (0, 0) := by
  have hm : (⟨0, 20⟩ : TerminalCellMetrics).cellPixelWidth ≤ 0 ∨
      (⟨0, 20⟩ : TerminalCellMetrics).cellPixelHeight ≤ 0 := Or.inl (le_refl 0)
  unfold resolveCellSize
  rw [if_pos hm]
  simp

/-- Claim C5 (amended): provided the terminal metrics have positive
components, whenever pixelWidth = 0 or pixelHeight = 0 (no image loaded),
`resolveCellSize` returns (0, 0) without error, regardless of the
requested dimensions and container bounds. -/
theorem resolve_no_image (sz : ImageSize) (c : ContainerBounds) (m : TerminalCellMetrics)
    (hmw : 0 < m.cellPixelWidth) (hmh : 0 < m.cellPixelHeight)
    (h0 : sz.pixelWidth = 0 ∨ sz.pixelHeight = 0) :
    resolveCellSize sz c m = Except.ok (0, 0) := by
  rw [resolveCellSize_ok sz c m hmw hmh, resolveCellSizeCore_zero sz c m h0]

/-- Claim C5 witness: a zero pixel width with valid metrics yields (0, 0)
even with fixed and auto requests and a nonzero container. -/
theorem resolve_no_image_witness :
    resolveCellSize ⟨0, 400, some (CellDimension.fixed 5), some CellDimension.auto⟩
      ⟨3, 3⟩ ⟨10, 20⟩ = Except.ok (0, 0) :=
  resolve_no_image ⟨0, 400, some (CellDimension.fixed 5), some CellDimension.auto⟩
    ⟨3, 3⟩ ⟨10, 20⟩ (by norm_num) (by norm_num) (Or.inl rfl)

/-- Claim C7: `resolveCellSize` is a pure, deterministic function of its
inputs: two calls with identical image size, container bounds and terminal
metrics yield identical outputs. -/
theorem resolve_deterministic (sz₁ sz₂ : ImageSize) (c₁ c₂ : ContainerBounds)
    (m₁ m₂ : TerminalCellMetrics) (hs : sz₁ = sz₂) (hc : c₁ = c₂) (hm : m₁ = m₂) :
    resolveCellSize sz₁ c₁ m₁ = resolveCellSize sz₂ c₂ m₂ := by
  rw [hs, hc, hm]

/-- Claim C7 witness: two identical calls on the spec scenario agree. -/
theorem resolve_deterministic_witness :
    resolveCellSize ⟨800, 400, none, none⟩ ⟨100, 100⟩ ⟨10, 20⟩ =
      resolveCellSize ⟨800, 400, none, none⟩ ⟨100, 100⟩ ⟨10, 20⟩ :=
  resolve_deterministic ⟨800, 400, none, none⟩ ⟨800, 400, none, none⟩
    ⟨100, 100⟩ ⟨100, 100⟩ ⟨10, 20⟩ ⟨10, 20⟩ rfl rfl rfl

/-- Claim C6 counterexample: the style-resolution step ignores the explicit
cell count carried by the style (40) and yields the widget's content size
on that axis (7) instead. -/
theorem styled_dimension_cex :
    getStyledDimension (some (StyleVal.scalar 40)) 7 ≠ some (CellDimension.fixed 40) := by
  decide

/-- Claim C6 (amended): for a dimension whose style is explicit (neither
unset nor auto), the style-resolution step yields `fixed n` where `n` is
the widget's content size on that axis (the host layout's realization of
the style, not the style's own value); and when both dimensions are fixed,
`resolveCellSize` uses both values directly, clamped to the container
bounds. -/
theorem styled_explicit_and_both_fixed (v d pw ph fw fh : Nat)
    (c : ContainerBounds) (m : TerminalCellMetrics)
    (hpw : 0 < pw) (hph : 0 < ph)
    (hmw : 0 < m.cellPixelWidth) (hmh : 0 < m.cellPixelHeight) :
    getStyledDimension (some (StyleVal.scalar v)) d = some (CellDimension.fixed d) ∧
    resolveCellSize ⟨pw, ph, some (CellDimension.fixed fw), some (CellDimension.fixed fh)⟩
      c m = Except.ok (min fw c.width, min fh c.height) := by
  refine ⟨rfl, ?_⟩
  rw [resolveCellSize_ok _ _ _ hmw hmh, resolveCellSizeCore_pos _ _ _ hpw hph]

/-- Claim C6 witness: an explicit style carrying 40 with content size 7
resolves to fixed 7, and both-fixed requests (30, 15) inside a (100, 100)
container resolve to (30, 15). -/
theorem styled_explicit_and_both_fixed_witness :
    getStyledDimension (some (StyleVal.scalar 40)) 7 = some (CellDimension.fixed 7) ∧
    resolveCellSize ⟨800, 400, some (CellDimension.fixed 30), some (CellDimension.fixed 15)⟩
      ⟨100, 100⟩ ⟨10, 20⟩ = Except.ok (30, 15) := by
  have h := styled_explicit_and_both_fixed 40 7 800 400 30 15 ⟨100, 100⟩ ⟨10, 20⟩
    (by norm_num) (by norm_num) (by norm_num) (by norm_num)
  refine ⟨h.1, ?_⟩
  rw [h.2]
  norm_num

/-- Claim C8: `get_content_width` and `get_content_height` each query the
terminal-metrics provider exactly once; the former returns only the width
component of the resolution against the container bounds, the latter only
the height component of the resolution with the already-resolved width in
place of the container width. -/
theorem content_methods_query_once (w : WidgetModel) (c vp : ContainerBounds)
    (p : Nat → TerminalCellMetrics) (n width : Nat) :
    (get_content_width w c vp p n).2 = n + 1 ∧
    (get_content_width w c vp p n).1 =
      (resolveCellSize (widgetImageSize w) c (p n)).map Prod.fst ∧
    (get_content_height w c vp width p n).2 = n + 1 ∧
    (get_content_height w c vp width p n).1 =
      (resolveCellSize (widgetImageSize w) ⟨width, c.height⟩ (p n)).map Prod.snd :=
  ⟨rfl, rfl, rfl, rfl⟩

/-- Claim C9: every image assignment leaves no live renderable (cleaning up
an existing one exactly when present), stores the value, caches the image's
pixel dimensions when the value is truthy and zeros when it is falsy, and
triggers a refresh. -/
theorem widget_setImage (w : WidgetModel) (v : Option ImageValue) :
    (setImage w v).renderable = none ∧
    (setImage w v).image = v ∧
    (∀ i, v = some i → i.isTruthy = true →
      (setImage w v).image_width = i.width ∧ (setImage w v).image_height = i.height) ∧
    (truthy v = false →
      (setImage w v).image_width = 0 ∧ (setImage w v).image_height = 0) ∧
    (setImage w v).refreshes = w.refreshes + 1 ∧
    (setImage w v).cleanups =
      (if w.renderable.isSome then w.cleanups + 1 else w.cleanups) := by
  rcases v with _ | i
  · cases hr : w.renderable <;>
      simp [setImage, cleanupRenderable, truthy, hr]
  · cases hit : i.isTruthy <;> cases hr : w.renderable <;>
      simp [setImage, cleanupRenderable, truthy, hr, hit]

/-- A concrete widget state with a live renderable, used by witnesses. -/
def sampleWidget : WidgetModel :=
  ⟨some ⟨⟨true, 1, 1⟩, none, none⟩, none, 0, 0, none, none, 5, 7, 2, 3⟩

/-- Claim C9 witness: assigning a truthy 800x400 image to a widget with a
live renderable cleans it up, stores the value, caches (800, 400) and
refreshes. -/
theorem widget_setImage_witness :
    (setImage sampleWidget (some ⟨true, 800, 400⟩)).renderable = none ∧
    (setImage sampleWidget (some ⟨true, 800, 400⟩)).image = some ⟨true, 800, 400⟩ ∧
    (∀ i, some (⟨true, 800, 400⟩ : ImageValue) = some i → i.isTruthy = true →
      (setImage sampleWidget (some ⟨true, 800, 400⟩)).image_width = i.width ∧
      (setImage sampleWidget (some ⟨true, 800, 400⟩)).image_height = i.height) ∧
    (truthy (some ⟨true, 800, 400⟩) = false →
      (setImage sampleWidget (some ⟨true, 800, 400⟩)).image_width = 0 ∧
      (setImage sampleWidget (some ⟨true, 800, 400⟩)).image_height = 0) ∧
    (setImage sampleWidget (some ⟨true, 800, 400⟩)).refreshes = sampleWidget.refreshes + 1 ∧
    (setImage sampleWidget (some ⟨true, 800, 400⟩)).cleanups =
      (if sampleWidget.renderable.isSome then sampleWidget.cleanups + 1
       else sampleWidget.cleanups) :=
  widget_setImage sampleWidget (some ⟨true, 800, 400⟩)

/-- Claim C10: when the widget reports a nonzero content width (given the
setter invariant that a falsy image leaves zero cached pixel dimensions),
the image is truthy, so `render`'s assertion cannot fail; `render` then
cleans up any previous renderable and installs a fresh renderable built
from the image and the current styled size. -/
theorem render_assert_safe (w : WidgetModel) (c vp : ContainerBounds)
    (p : Nat → TerminalCellMetrics) (n k : Nat)
    (hinv : truthy w.image = false → w.image_width = 0)
    (hok : (get_content_width w c vp p n).1 = Except.ok k) (hk : 0 < k) :
    truthy w.image = true ∧
    render w = some { cleanupRenderable w with
      renderable := w.image.map fun v =>
        ⟨v, (getStyledSize w).1, (getStyledSize w).2⟩ } := by
  have hmap : (resolveCellSize (widgetImageSize w) c (p n)).map Prod.fst =
      Except.ok k := hok
  rcases hres : resolveCellSize (widgetImageSize w) c (p n) with e | pr
  · rw [hres] at hmap
    simp [Except.map] at hmap
  · rw [hres] at hmap
    simp [Except.map] at hmap
    have htr : truthy w.image = true := by
      by_contra hft
      have hft2 : truthy w.image = false := by
        cases htrv : truthy w.image
        · rfl
        · exact absurd htrv hft
      have h0 : w.image_width = 0 := hinv hft2
      have hpr0 : pr = resolveCellSizeCore (widgetImageSize w) c (p n) :=
        resolveCellSize_ok_inv _ _ _ pr hres
      have hz : resolveCellSizeCore (widgetImageSize w) c (p n) = (0, 0) :=
        resolveCellSizeCore_zero _ _ _ (Or.inl h0)
      rw [hz] at hpr0
      rw [hpr0] at hmap
      simp at hmap
      omega
    obtain ⟨v, hv⟩ : ∃ v, w.image = some v := by
      cases hiv : w.image
      · rw [hiv] at htr
        simp [truthy] at htr
      · exact ⟨_, rfl⟩
    have hvt : v.isTruthy = true := by
      rw [hv] at htr
      simpa [truthy] using htr
    refine ⟨htr, ?_⟩
    simp [render, hv, hvt]

/-- A concrete widget state holding a truthy 800x400 image and a live
renderable, used by the render witness. -/
def sampleRenderWidget : WidgetModel :=
  ⟨some ⟨⟨true, 1, 1⟩, none, none⟩, some ⟨true, 800, 400⟩, 800, 400,
   none, none, 0, 0, 0, 0⟩

/-- Claim C10 witness: a widget with a truthy 800x400 image reporting a
content width of 80 renders successfully, replacing its renderable. -/
theorem render_assert_safe_witness :
    truthy sampleRenderWidget.image = true ∧
    render sampleRenderWidget = some { cleanupRenderable sampleRenderWidget with
      renderable := sampleRenderWidget.image.map fun v =>
        ⟨v, (getStyledSize sampleRenderWidget).1, (getStyledSize sampleRenderWidget).2⟩ } := by
  have hres : resolveCellSize (widgetImageSize sampleRenderWidget) ⟨100, 100⟩ ⟨10, 20⟩ =
      Except.ok (80, 20) := by
    rw [resolveCellSize_ok _ _ _ (by norm_num) (by norm_num),
        resolveCellSizeCore_pos _ _ _ (by decide) (by decide)]
    show Except.ok (min (cellsNeeded 800 10) 100, min (cellsNeeded 400 20) 100) = _
    norm_num [cellsNeeded]
    decide
  exact render_assert_safe sampleRenderWidget ⟨100, 100⟩ ⟨0, 0⟩ (fun _ => ⟨10, 20⟩) 0 80
    (by decide)
    (by show (resolveCellSize (widgetImageSize sampleRenderWidget) ⟨100, 100⟩ ⟨10, 20⟩).map
          Prod.fst = Except.ok 80
        rw [hres]
        simp [Except.map])
    (by norm_num)

end TextualKitty
